import Mathlib

/-!
A shallow embedding of `src/database/db_handler.py` (class `SceneDatabase`),
a SQLite-backed persistence layer for scene-capture records.

Modelling conventions:
* SQLite storage values are `Value` (NULL, INTEGER, REAL, TEXT); REAL is
  modelled by `Rat` since the layer performs no arithmetic on it, only
  storage and order comparison.
* Python input values are `PyVal` (dicts, lists and scalars); Python `dict`
  arguments are association lists `PyDict` (Python dicts have unique keys
  and preserve insertion order).
* The sqlite3 connection's transaction behaviour is modelled by a `Store`
  carrying the last committed database `committed` and the working database
  `current`.  A `with self.conn:` block is `withConn`: on success it commits
  (`committed := current`), on an exception it rolls back
  (`current := committed`) and re-raises.  Note that Python's sqlite3 module
  does not nest transactions: a `with` block inside an outer `with` block
  commits the whole outstanding transaction on exit.  `execute` outside any
  `with` block (as in `add_scene`) leaves its effect uncommitted in
  `current`.
* Fallible Python code (KeyError, IndexError, TypeError, sqlite errors)
  returns `Except Err`; every operation also returns the post-call `Store`.
-/

namespace SceneDB

/-- A SQLite storage value: NULL, INTEGER, REAL or TEXT. -/
inductive Value where
  | null
  | int (i : Int)
  | real (q : Rat)
  | text (s : String)
deriving DecidableEq, Repr

/-- SQLite's type class for ordering: NULL sorts before numeric values
(INTEGER and REAL compare numerically with each other), which sort before
TEXT. -/
def Value.rank : Value → Nat
  | .null => 0
  | .int _ => 1
  | .real _ => 1
  | .text _ => 2

/-- The numeric content of a value (0 for non-numeric values, whose order
never reaches the numeric comparison). -/
def Value.num : Value → Rat
  | .int i => (i : Rat)
  | .real q => q
  | _ => 0

/-- The text content of a value ("" for non-text values, whose order never
reaches the text comparison). -/
def Value.str : Value → String
  | .text s => s
  | _ => ""

/-- Lexicographic comparison of character lists by code point (UTF-8 byte
order and code-point order agree, matching SQLite's memcmp comparison of
TEXT). -/
def charListLe : List Char → List Char → Bool
  | [], _ => true
  | _ :: _, [] => false
  | c :: cs, d :: ds =>
      if c.toNat < d.toNat then true
      else if d.toNat < c.toNat then false
      else charListLe cs ds

/-- Lexicographic string comparison by code point. -/
def strLe (a b : String) : Bool :=
  charListLe a.data b.data

/-- SQLite's cross-type ordering used by ORDER BY and BETWEEN, as the
lexicographic comparison of (type rank, numeric content, text content):
NULL sorts before numeric values, numeric values (INTEGER and REAL
compared numerically) sort before TEXT, TEXT compares
lexicographically. -/
def Value.le (a b : Value) : Bool :=
  decide (a.rank < b.rank) ||
    (decide (a.rank = b.rank) &&
      (decide (a.num < b.num) ||
        (decide (a.num = b.num) && strLe a.str b.str)))

/-- A Python value as passed into the layer: `None`, int, float, str,
list or dict. -/
inductive PyVal where
  | null
  | int (i : Int)
  | real (q : Rat)
  | str (s : String)
  | list (xs : List PyVal)
  | dict (kvs : List (String × PyVal))

/-- A Python `Dict` argument, as an insertion-ordered association list. -/
abbrev PyDict := List (String × PyVal)

/-- Python `d[k]` / `k in d` lookup (first matching key; Python dicts have
unique keys). -/
def pyGet (d : PyDict) (k : String) : Option PyVal :=
  (d.find? (fun kv => kv.1 == k)).map (fun kv => kv.2)

/-- Python `k in d`. -/
def hasKey (d : PyDict) (k : String) : Bool :=
  (pyGet d k).isSome

/-- Errors surfaced by the layer: Python KeyError / IndexError / TypeError
raised while building parameter tuples, and sqlite3 errors raised by the
engine (unsupported parameter type, foreign-key violation, SQL syntax
error, unknown column). -/
inductive Err where
  | keyError (k : String)
  | indexError
  | typeError
  | bindError
  | fkViolation
  | syntaxError
  | noSuchColumn
deriving DecidableEq, Repr

/-- Binding a Python value as a SQL parameter: scalars map to storage
values, lists and dicts are unsupported parameter types. -/
def toSQL : PyVal → Except Err Value
  | .null => .ok .null
  | .int i => .ok (.int i)
  | .real q => .ok (.real q)
  | .str s => .ok (.text s)
  | .list _ => .error .bindError
  | .dict _ => .error .bindError

/-- `metadata[k]` followed by parameter binding: KeyError when absent. -/
def reqParam (d : PyDict) (k : String) : Except Err Value :=
  match pyGet d k with
  | Option.none => .error (.keyError k)
  | Option.some v => toSQL v

/-- `metadata.get(k)` followed by parameter binding: NULL when absent. -/
def optParam (d : PyDict) (k : String) : Except Err Value :=
  match pyGet d k with
  | Option.none => .ok .null
  | Option.some v => toSQL v

/-- A row of the `scenes` table. -/
structure SceneRow where
  scene_id : Value
  timestamp : Value
  latitude : Value
  longitude : Value
  resolution : Value
  camera_id : Value
  media_path : Value
deriving DecidableEq, Repr

/-- A row of the `detections` table. -/
structure DetectionRow where
  detection_id : Value
  scene_id : Value
  class_label : Value
  confidence : Value
  x_min : Value
  y_min : Value
  x_max : Value
  y_max : Value
deriving DecidableEq, Repr

/-- A row of the `annotations` table. -/
structure AnnotationRow where
  annotation_id : Value
  scene_id : Value
  label_type : Value
  description : Value
  class_label : Value
  x_min : Value
  y_min : Value
  x_max : Value
  y_max : Value
  annotated_by : Value
deriving DecidableEq, Repr

/-- A row of the `scene_descriptions` table. -/
structure SceneDescriptionRow where
  description_id : Value
  scene_id : Value
  description : Value
  confidence : Value
  model_version : Value
deriving DecidableEq, Repr

/-- A row of the `datasets` table (no primary key). -/
structure DatasetRow where
  scene_id : Value
  dataset_type : Value
deriving DecidableEq, Repr

/-- Modelled from the spec: the schema DDL (the body of the `executescript`
call in `_create_tables`) is absent from the source, so the column lists
and their declaration order are taken from the spec's schema table
(section 6). `SELECT *` returns columns in this declaration order. -/
def scenesColumns : List String :=
  ["scene_id", "timestamp", "latitude", "longitude", "resolution",
   "camera_id", "media_path"]

/-- Declaration-ordered columns of `detections` (see `scenesColumns`). -/
def detectionsColumns : List String :=
  ["detection_id", "scene_id", "class_label", "confidence",
   "x_min", "y_min", "x_max", "y_max"]

/-- Declaration-ordered columns of `annotations` (see `scenesColumns`). -/
def annotationsColumns : List String :=
  ["annotation_id", "scene_id", "label_type", "description", "class_label",
   "x_min", "y_min", "x_max", "y_max", "annotated_by"]

/-- A `scenes` row as `SELECT *` returns it (declaration order). -/
def SceneRow.toRow (r : SceneRow) : List Value :=
  [r.scene_id, r.timestamp, r.latitude, r.longitude, r.resolution,
   r.camera_id, r.media_path]

/-- A `detections` row as `SELECT *` returns it (declaration order). -/
def DetectionRow.toRow (r : DetectionRow) : List Value :=
  [r.detection_id, r.scene_id, r.class_label, r.confidence,
   r.x_min, r.y_min, r.x_max, r.y_max]

/-- An `annotations` row as `SELECT *` returns it (declaration order). -/
def AnnotationRow.toRow (r : AnnotationRow) : List Value :=
  [r.annotation_id, r.scene_id, r.label_type, r.description, r.class_label,
   r.x_min, r.y_min, r.x_max, r.y_max, r.annotated_by]

/-- The five tables plus the engine's next auto-assigned rowids
(sqlite rowids start at 1). -/
structure DB where
  scenes : List SceneRow
  detections : List DetectionRow
  annotations : List AnnotationRow
  scene_descriptions : List SceneDescriptionRow
  datasets : List DatasetRow
  next_scene_id : Int
  next_detection_id : Int
  next_annotation_id : Int
  next_description_id : Int
deriving DecidableEq, Repr

/-- The freshly created database: empty tables, rowids starting at 1. -/
def emptyDB : DB :=
  { scenes := [], detections := [], annotations := [],
    scene_descriptions := [], datasets := [],
    next_scene_id := 1, next_detection_id := 1,
    next_annotation_id := 1, next_description_id := 1 }

/-- The connection state: the last committed database and the working
database of the outstanding transaction (equal when no transaction is
pending). -/
structure Store where
  committed : DB
  current : DB
deriving DecidableEq, Repr

/-- A store with no pending transaction over the fresh database. -/
def emptyStore : Store := ⟨emptyDB, emptyDB⟩

/-- `conn.commit()`. -/
def Store.commit (s : Store) : Store := ⟨s.current, s.current⟩

/-- `conn.rollback()`: back to the last commit point. -/
def Store.rollback (s : Store) : Store := ⟨s.committed, s.committed⟩

/-- `with self.conn: ...` — commit on success, roll back (and re-raise) on
an exception.  Commits performed inside `act` (by nested `with` blocks)
persist even when a later failure rolls back. -/
def withConn (act : Store → Except Err α × Store) (s : Store) :
    Except Err α × Store :=
  match act s with
  | (.ok a, s') => (.ok a, s'.commit)
  | (.error e, s') => (.error e, s'.rollback)

/-- Modelled from the spec: the schema DDL is absent from the source; per
the spec's invariants, every dependent row must reference an existing scene
(foreign key, enforced at insert time as a store-level error). -/
def sceneExists (db : DB) (sid : Value) : Bool :=
  db.scenes.any (fun r => r.scene_id == sid)

/-- The parameter tuple of `add_scene`'s INSERT, in source order:
`metadata['timestamp']`, `metadata.get('latitude')`,
`metadata.get('longitude')`, `metadata.get('resolution')`,
`metadata['camera_id']`, `metadata['media_path']`. -/
def sceneValues (metadata : PyDict) :
    Except Err (Value × Value × Value × Value × Value × Value) := do
  let ts ← reqParam metadata "timestamp"
  let lat ← optParam metadata "latitude"
  let lon ← optParam metadata "longitude"
  let res ← optParam metadata "resolution"
  let cam ← reqParam metadata "camera_id"
  let mp ← reqParam metadata "media_path"
  return (ts, lat, lon, res, cam, mp)

/-- `add_scene`: single INSERT executed on a bare cursor — NOT wrapped in
`with self.conn:`, so the new row stays uncommitted in `current`.  Returns
`cursor.lastrowid`. -/
def add_scene (metadata : PyDict) (s : Store) : Except Err Int × Store :=
  match sceneValues metadata with
  | .error e => (.error e, s)
  | .ok (ts, lat, lon, res, cam, mp) =>
      let id := s.current.next_scene_id
      let row : SceneRow :=
        ⟨.int id, ts, lat, lon, res, cam, mp⟩
      (.ok id,
        { s with current :=
          { s.current with
              scenes := s.current.scenes ++ [row],
              next_scene_id := id + 1 } })

/-- `d['bbox'][i]` followed by parameter binding. -/
def bboxElem (xs : List PyVal) (i : Nat) : Except Err Value :=
  match xs.get? i with
  | Option.none => .error .indexError
  | Option.some v => toSQL v

/-- The parameter tuples of `add_detections`'s INSERT, built (in source
order `d['class'], d['confidence'], d['bbox'][0..3]`, left to right over
the batch) by the list comprehension BEFORE the `with self.conn:` block.
The constant `scene_id` component shared by every tuple is carried
separately. -/
def detValues (detections : List PyDict) :
    Except Err (List (Value × Value × Value × Value × Value × Value)) :=
  match detections with
  | [] => .ok []
  | d :: ds => do
      let cls ← reqParam d "class"
      let conf ← reqParam d "confidence"
      match pyGet d "bbox" with
      | Option.none => .error (.keyError "bbox")
      | Option.some (.list xs) => do
          let x0 ← bboxElem xs 0
          let y0 ← bboxElem xs 1
          let x1 ← bboxElem xs 2
          let y1 ← bboxElem xs 3
          let rest ← detValues ds
          return (cls, conf, x0, y0, x1, y1) :: rest
      | Option.some _ => .error .typeError

/-- `executemany` over the detection INSERT: rows inserted one at a time,
each checked against the scenes foreign key, stopping at the first
failure. -/
def insertDetectionRows (sid : Value)
    (rows : List (Value × Value × Value × Value × Value × Value))
    (s : Store) : Except Err Unit × Store :=
  match rows with
  | [] => (.ok (), s)
  | (cls, conf, x0, y0, x1, y1) :: rest =>
      if sceneExists s.current sid then
        let db := s.current
        let row : DetectionRow :=
          ⟨.int db.next_detection_id, sid, cls, conf, x0, y0, x1, y1⟩
        insertDetectionRows sid rest
          { s with current :=
            { db with
                detections := db.detections ++ [row],
                next_detection_id := db.next_detection_id + 1 } }
      else (.error .fkViolation, s)

/-- `add_detections`: parameter tuples built first (Python exceptions there
precede any SQL), then `with self.conn: executemany(...)`. -/
def add_detections (scene_id : Int) (detections : List PyDict) (s : Store) :
    Except Err Unit × Store :=
  match detValues detections with
  | .error e => (.error e, s)
  | .ok rows => withConn (insertDetectionRows (.int scene_id) rows) s

/-- The parameter tuple of `add_annotation`'s INSERT, in source order (the
constant `scene_id` component is supplied by `add_annotation` itself). -/
def annValues ( annotation : PyDict) :
    Except Err (Value × Value × Value × Value × Value × Value × Value ×
                Value) := do
  let lt ← reqParam annotation "label_type"
  let desc ← optParam annotation "description"
  let cls ← optParam annotation "class_label"
  let x0 ← optParam annotation "x_min"
  let y0 ← optParam annotation "y_min"
  let x1 ← optParam annotation "x_max"
  let y1 ← optParam annotation "y_max"
  let ab ← optParam annotation "annotated_by"
  return (lt, desc, cls, x0, y0, x1, y1, ab)

/-- `add_annotation`: values tuple built first, then
`with self.conn: execute(...)` with the foreign-key check. -/
def add_annotation (scene_id : Int) ( annotation : PyDict) (s : Store) :
    Except Err Unit × Store :=
  match annValues annotation with
  | .error e => (.error e, s)
  | .ok (lt, desc, cls, x0, y0, x1, y1, ab) =>
      withConn (fun s0 =>
        if sceneExists s0.current (.int scene_id) then
          let db := s0.current
          let row : AnnotationRow :=
            ⟨.int db.next_annotation_id, .int scene_id, lt, desc, cls,
             x0, y0, x1, y1, ab⟩
          (.ok (),
            { s0 with current :=
              { db with
                  annotations := db.annotations ++ [row],
                  next_annotation_id := db.next_annotation_id + 1 } })
        else (.error .fkViolation, s0)) s

/-- `add_scene_description`: `with self.conn: execute(...)` — parameter
binding and the foreign-key check both happen inside the block. -/
def add_scene_description (scene_id : Int) (description confidence
    model_version : PyVal) (s : Store) : Except Err Unit × Store :=
  withConn (fun s0 =>
    match toSQL description, toSQL confidence, toSQL model_version with
    | .ok d, .ok c, .ok mv =>
        if sceneExists s0.current (.int scene_id) then
          let db := s0.current
          let row : SceneDescriptionRow :=
            ⟨.int db.next_description_id, .int scene_id, d, c, mv⟩
          (.ok (),
            { s0 with current :=
              { db with
                  scene_descriptions := db.scene_descriptions ++ [row],
                  next_description_id := db.next_description_id + 1 } })
        else (.error .fkViolation, s0)
    | .error e, _, _ => (.error e, s0)
    | _, .error e, _ => (.error e, s0)
    | _, _, .error e => (.error e, s0)) s

/-- `executemany` over the dataset INSERT (see `insertDetectionRows`). -/
def insertDatasetRows (rows : List (Value × Value)) (s : Store) :
    Except Err Unit × Store :=
  match rows with
  | [] => (.ok (), s)
  | (sid, dt) :: rest =>
      if sceneExists s.current sid then
        insertDatasetRows rest
          { s with current :=
            { s.current with
                datasets := s.current.datasets ++ [⟨sid, dt⟩] } }
      else (.error .fkViolation, s)

/-- `assign_to_dataset`: one `(scene_id, dataset_type)` row per id, inside
`with self.conn:`. -/
def assign_to_dataset (scene_ids : List Int) (dataset_type : String)
    (s : Store) : Except Err Unit × Store :=
  let values := scene_ids.map (fun sid => (Value.int sid, Value.text dataset_type))
  withConn (insertDatasetRows values) s

/-- Elementwise check of `scene['detections']`'s members, which
`add_detections`'s list comprehension subscripts as dicts. -/
def asDicts (xs : List PyVal) : Except Err (List PyDict) :=
  match xs with
  | [] => .ok []
  | .dict d :: rest => do
      let ds ← asDicts rest
      return d :: ds
  | _ :: _ => .error .typeError

/-- `scene['detections']` handed to `add_detections`, whose list
comprehension iterates it and subscripts each element as a dict. -/
def asDictList (v : PyVal) : Except Err (List PyDict) :=
  match v with
  | .list xs => asDicts xs
  | _ => .error .typeError

/-- The `if 'description' in scene:` branch of `incremental_update`'s loop
body: `scene['description']`, `scene['confidence']` and
`scene['model_version']` are subscripted directly (KeyError when absent)
and handed to `add_scene_description`. -/
def processDescription (scene : PyDict) (sid : Int) (s2 : Store) :
    Except Err Unit × Store :=
  match pyGet scene "description" with
  | Option.none => (.ok (), s2)
  | Option.some dsc =>
      match pyGet scene "confidence" with
      | Option.none => (.error (.keyError "confidence"), s2)
      | Option.some conf =>
          match pyGet scene "model_version" with
          | Option.none => (.error (.keyError "model_version"), s2)
          | Option.some mv =>
              add_scene_description sid dsc conf mv s2

/-- One iteration of `incremental_update`'s loop: `add_scene`, then the
conditional `add_detections` call, then the description branch. -/
def processScene (scene : PyDict) (s : Store) : Except Err Unit × Store :=
  match pyGet scene "metadata" with
  | Option.none => (.error (.keyError "metadata"), s)
  | Option.some (.dict md) =>
      match add_scene md s with
      | (.error e, s1) => (.error e, s1)
      | (.ok sid, s1) =>
          let afterDet : Except Err Unit × Store :=
            match pyGet scene "detections" with
            | Option.none => (.ok (), s1)
            | Option.some dv =>
                match asDictList dv with
                | .error e => (.error e, s1)
                | .ok ds => add_detections sid ds s1
          match afterDet with
          | (.error e, s2) => (.error e, s2)
          | (.ok _, s2) => processDescription scene sid s2
  | Option.some _ => (.error .typeError, s)

/-- The loop body of `incremental_update`, record by record. -/
def processScenes (new_scenes : List PyDict) (s : Store) :
    Except Err Unit × Store :=
  match new_scenes with
  | [] => (.ok (), s)
  | sc :: rest =>
      match processScene sc s with
      | (.error e, s') => (.error e, s')
      | (.ok _, s') => processScenes rest s'

/-- `incremental_update`: the whole loop inside one `with self.conn:`
block.  Note the nested `with` blocks of `add_detections` and
`add_scene_description` commit the outstanding transaction mid-loop. -/
def incremental_update (new_scenes : List PyDict) (s : Store) :
    Except Err Unit × Store :=
  withConn (processScenes new_scenes) s

/-- A row as handed back to the caller: either the raw positional tuple of
`fetchall`/`fetchone`, or the `_row_to_dict` mapping. -/
inductive RRow where
  | tuple (vs : List Value)
  | mapped (kvs : List (String × Value))
deriving DecidableEq, Repr

/-- Whether the caller received a column-name mapping (vs a positional
tuple). -/
def RRow.isMapped : RRow → Bool
  | .tuple _ => false
  | .mapped _ => true

/-- The first field of a positional result row (the `s.scene_id` column of
a `SELECT s.*, ...` projection). -/
def rowSceneId : RRow → Option Value
  | .tuple vs => vs.head?
  | .mapped _ => Option.none

/-- The last field of a positional result row (the `d.description` column
of `get_training_data`'s projection). -/
def rowLast : RRow → Option Value
  | .tuple vs => vs.getLast?
  | .mapped _ => Option.none

/-- `_row_to_dict`: `{description[i][0]: value for i, value in
enumerate(row)}` — keys are the cursor's column names in declaration
order. -/
def row_to_dict (row : List Value) (description : List String) :
    List (String × Value) :=
  description.zip row

/-- `get_scene`: `SELECT * ... WHERE scene_id = ?`, `fetchone`, converted
by `_row_to_dict`; `None` when absent. -/
def get_scene (scene_id : Int) (s : Store) : Option RRow :=
  match s.current.scenes.find? (fun r => r.scene_id == .int scene_id) with
  | Option.none => Option.none
  | Option.some r => Option.some (.mapped (row_to_dict r.toRow scenesColumns))

/-- `get_detection` (see `get_scene`). -/
def get_detection (detection_id : Int) (s : Store) : Option RRow :=
  match s.current.detections.find?
      (fun r => r.detection_id == .int detection_id) with
  | Option.none => Option.none
  | Option.some r =>
      Option.some (.mapped (row_to_dict r.toRow detectionsColumns))

/-- `get_annotation` (see `get_scene`). -/
def get_annotation (annotation_id : Int) (s : Store) : Option RRow :=
  match s.current.annotations.find?
      (fun r => r.annotation_id == .int annotation_id) with
  | Option.none => Option.none
  | Option.some r =>
      Option.some (.mapped (row_to_dict r.toRow annotationsColumns))

/-- SQL `v BETWEEN lo AND hi` (inclusive, SQLite cross-type order). -/
def between (v lo hi : Value) : Bool :=
  Value.le lo v && Value.le v hi

/-- `get_scenes_by_time_range`: raw `fetchall` rows, no conversion. -/
def get_scenes_by_time_range (start end_ : String) (s : Store) : List RRow :=
  (s.current.scenes.filter
      (fun r => between r.timestamp (.text start) (.text end_))).map
    (fun r => .tuple r.toRow)

/-- `get_detections_by_class`: raw `fetchall` rows, no conversion. -/
def get_detections_by_class (class_label : String)
    (confidence_threshold : Rat) (s : Store) : List RRow :=
  (s.current.detections.filter
      (fun r => r.class_label == .text class_label &&
        Value.le (.real confidence_threshold) r.confidence)).map
    (fun r => .tuple r.toRow)

/-- The LEFT JOIN step of `get_training_data` for one scene-dataset pair:
the scene's matching description rows, or one null-extended row when it
has none. -/
def descPad (db : DB) (sc : SceneRow) (ds : DatasetRow) :
    List (SceneRow × DatasetRow × Option SceneDescriptionRow) :=
  let ms := db.scene_descriptions.filter (fun d => d.scene_id == sc.scene_id)
  if ms.isEmpty then [(sc, ds, Option.none)]
  else ms.map (fun d => (sc, ds, Option.some d))

/-- The JOIN/LEFT JOIN rows contributed by one scene. -/
def sceneJoin (db : DB) (sc : SceneRow) :
    List (SceneRow × DatasetRow × Option SceneDescriptionRow) :=
  (db.datasets.filter (fun ds => ds.scene_id == sc.scene_id)).flatMap
    (descPad db sc)

/-- The FROM/JOIN/LEFT JOIN step of `get_training_data`: scenes joined to
their dataset rows, left-joined to their description rows (a scene-dataset
pair with no matching description yields one null-extended row). -/
def trainingJoin (db : DB) :
    List (SceneRow × DatasetRow × Option SceneDescriptionRow) :=
  db.scenes.flatMap (sceneJoin db)

/-- `d.description` under the left join: NULL when no description row
matched. -/
def descText : Option SceneDescriptionRow → Value
  | Option.none => .null
  | Option.some d => d.description

/-- `get_training_data`: join, WHERE `ds.dataset_type = 'train'`, project
`s.*, d.description`; raw `fetchall` rows, no conversion. -/
def get_training_data (s : Store) : List RRow :=
  ((trainingJoin s.current).filter
      (fun t => t.2.1.dataset_type == Value.text "train")).map
    (fun t => .tuple (t.1.toRow ++ [descText t.2.2]))

/-- `ORDER BY timestamp DESC` as a relation on scene rows. -/
def sceneDesc (a b : SceneRow) : Prop :=
  Value.le b.timestamp a.timestamp = true

instance : DecidableRel sceneDesc := fun a b => by
  unfold sceneDesc; infer_instance

/-- `get_all_scenes`: `SELECT * FROM scenes ORDER BY timestamp DESC LIMIT ?`
with every row converted by `_row_to_dict`.  SQL leaves the relative order
of equal timestamps unspecified; the model fixes one such order (a stable
sort). -/
def get_all_scenes (limit : Nat) (s : Store) : List RRow :=
  ((List.insertionSort sceneDesc s.current.scenes).take limit).map
    (fun r => .mapped (row_to_dict r.toRow scenesColumns))

/-- `get_scene_detections`: all detections of a scene, each converted by
`_row_to_dict`. -/
def get_scene_detections (scene_id : Int) (s : Store) : List RRow :=
  (s.current.detections.filter (fun r => r.scene_id == .int scene_id)).map
    (fun r => .mapped (row_to_dict r.toRow detectionsColumns))

/-- Column assignment of an UPDATE on `scenes`, resolved by column name. -/
def sceneSetCol (r : SceneRow) (k : String) (v : Value) : SceneRow :=
  if k == "scene_id" then { r with scene_id := v }
  else if k == "timestamp" then { r with timestamp := v }
  else if k == "latitude" then { r with latitude := v }
  else if k == "longitude" then { r with longitude := v }
  else if k == "resolution" then { r with resolution := v }
  else if k == "camera_id" then { r with camera_id := v }
  else if k == "media_path" then { r with media_path := v }
  else r

/-- Column read of a `scenes` row by column name. -/
def sceneGetCol (r : SceneRow) (k : String) : Option Value :=
  if k == "scene_id" then Option.some r.scene_id
  else if k == "timestamp" then Option.some r.timestamp
  else if k == "latitude" then Option.some r.latitude
  else if k == "longitude" then Option.some r.longitude
  else if k == "resolution" then Option.some r.resolution
  else if k == "camera_id" then Option.some r.camera_id
  else if k == "media_path" then Option.some r.media_path
  else Option.none

/-- The SET list applied to one row. -/
def applySceneSets (r : SceneRow) (assigns : List (String × Value)) :
    SceneRow :=
  assigns.foldl (fun acc kv => sceneSetCol acc kv.1 kv.2) r

/-- Binding `list(updates.values())` as SQL parameters, left to right. -/
def bindParams : List (String × PyVal) → Except Err (List Value)
  | [] => .ok []
  | kv :: rest => do
      let v ← toSQL kv.2
      let vs ← bindParams rest
      return v :: vs

/-- `update_scene`: the SET clause is built by joining `updates.keys()`;
an empty mapping produces the malformed statement
`UPDATE scenes SET  WHERE scene_id = ?` (SQL syntax error), an unknown
column name is rejected by the engine, both inside `with self.conn:`. -/
def update_scene (scene_id : Int) (updates : PyDict) (s : Store) :
    Except Err Unit × Store :=
  withConn (fun s0 =>
    if updates.isEmpty then (.error .syntaxError, s0)
    else if updates.any (fun kv => !(scenesColumns.contains kv.1)) then
      (.error .noSuchColumn, s0)
    else
      match bindParams updates with
      | .error e => (.error e, s0)
      | .ok vals =>
          let assigns := (updates.map (fun kv => kv.1)).zip vals
          (.ok (),
            { s0 with current :=
              { s0.current with
                  scenes := s0.current.scenes.map (fun r =>
                    if r.scene_id == .int scene_id then
                      applySceneSets r assigns
                    else r) } })) s

/-- `delete_scene`: one DELETE on `scenes` inside `with self.conn:`.
Modelled from the spec: the absent schema DDL declares the four dependent
tables' foreign keys with cascade-delete semantics, so the engine also
removes every dependent row referencing the scene. -/
def delete_scene (scene_id : Int) (s : Store) : Except Err Unit × Store :=
  withConn (fun s0 =>
    let sid := Value.int scene_id
    (.ok (),
      { s0 with current :=
        { s0.current with
            scenes := s0.current.scenes.filter
              (fun r => !(r.scene_id == sid)),
            detections := s0.current.detections.filter
              (fun r => !(r.scene_id == sid)),
            annotations := s0.current.annotations.filter
              (fun r => !(r.scene_id == sid)),
            scene_descriptions := s0.current.scene_descriptions.filter
              (fun r => !(r.scene_id == sid)),
            datasets := s0.current.datasets.filter
              (fun r => !(r.scene_id == sid)) } })) s

/-- Column assignment of an UPDATE on `detections`. -/
def detSetCol (r : DetectionRow) (k : String) (v : Value) : DetectionRow :=
  if k == "detection_id" then { r with detection_id := v }
  else if k == "scene_id" then { r with scene_id := v }
  else if k == "class_label" then { r with class_label := v }
  else if k == "confidence" then { r with confidence := v }
  else if k == "x_min" then { r with x_min := v }
  else if k == "y_min" then { r with y_min := v }
  else if k == "x_max" then { r with x_max := v }
  else if k == "y_max" then { r with y_max := v }
  else r

/-- The SET list applied to one detection row. -/
def applyDetSets (r : DetectionRow) (assigns : List (String × Value)) :
    DetectionRow :=
  assigns.foldl (fun acc kv => detSetCol acc kv.1 kv.2) r

/-- `update_detection` (see `update_scene`). -/
def update_detection (detection_id : Int) (updates : PyDict) (s : Store) :
    Except Err Unit × Store :=
  withConn (fun s0 =>
    if updates.isEmpty then (.error .syntaxError, s0)
    else if updates.any (fun kv => !(detectionsColumns.contains kv.1)) then
      (.error .noSuchColumn, s0)
    else
      match bindParams updates with
      | .error e => (.error e, s0)
      | .ok vals =>
          let assigns := (updates.map (fun kv => kv.1)).zip vals
          (.ok (),
            { s0 with current :=
              { s0.current with
                  detections := s0.current.detections.map (fun r =>
                    if r.detection_id == .int detection_id then
                      applyDetSets r assigns
                    else r) } })) s

/-- `delete_detection`: single-row DELETE by primary key. -/
def delete_detection (detection_id : Int) (s : Store) :
    Except Err Unit × Store :=
  withConn (fun s0 =>
    (.ok (),
      { s0 with current :=
        { s0.current with
            detections := s0.current.detections.filter
              (fun r => !(r.detection_id == .int detection_id)) } })) s

/-- Column assignment of an UPDATE on `annotations`. -/
def annSetCol (r : AnnotationRow) (k : String) (v : Value) : AnnotationRow :=
  if k == "annotation_id" then { r with annotation_id := v }
  else if k == "scene_id" then { r with scene_id := v }
  else if k == "label_type" then { r with label_type := v }
  else if k == "description" then { r with description := v }
  else if k == "class_label" then { r with class_label := v }
  else if k == "x_min" then { r with x_min := v }
  else if k == "y_min" then { r with y_min := v }
  else if k == "x_max" then { r with x_max := v }
  else if k == "y_max" then { r with y_max := v }
  else if k == "annotated_by" then { r with annotated_by := v }
  else r

/-- The SET list applied to one annotation row. -/
def applyAnnSets (r : AnnotationRow) (assigns : List (String × Value)) :
    AnnotationRow :=
  assigns.foldl (fun acc kv => annSetCol acc kv.1 kv.2) r

/-- `update_annotation` (see `update_scene`). -/
def update_annotation (annotation_id : Int) (updates : PyDict) (s : Store) :
    Except Err Unit × Store :=
  withConn (fun s0 =>
    if updates.isEmpty then (.error .syntaxError, s0)
    else if updates.any (fun kv => !(annotationsColumns.contains kv.1)) then
      (.error .noSuchColumn, s0)
    else
      match bindParams updates with
      | .error e => (.error e, s0)
      | .ok vals =>
          let assigns := (updates.map (fun kv => kv.1)).zip vals
          (.ok (),
            { s0 with current :=
              { s0.current with
                  annotations := s0.current.annotations.map (fun r =>
                    if r.annotation_id == .int annotation_id then
                      applyAnnSets r assigns
                    else r) } })) s

/-- `delete_annotation`: single-row DELETE by primary key. -/
def delete_annotation (annotation_id : Int) (s : Store) :
    Except Err Unit × Store :=
  withConn (fun s0 =>
    (.ok (),
      { s0 with current :=
        { s0.current with
            annotations := s0.current.annotations.filter
              (fun r => !(r.annotation_id == .int annotation_id)) } })) s

/-- `create_scene`: delegates to `add_scene`. -/
def create_scene (metadata : PyDict) (s : Store) : Except Err Int × Store :=
  add_scene metadata s

/-! Concrete sample inputs used by witnesses and counterexamples. -/

/-- Valid scene metadata (optional fields absent). -/
def sampleMeta : PyDict :=
  [("timestamp", .str "2024-01-01T00:00:00"),
   ("camera_id", .str "cam1"),
   ("media_path", .str "/data/a.jpg")]

/-- A second valid scene metadata mapping. -/
def sampleMeta2 : PyDict :=
  [("timestamp", .str "2024-01-02T00:00:00"),
   ("camera_id", .str "cam2"),
   ("media_path", .str "/data/b.jpg")]

/-- A well-formed detection record. -/
def sampleDet : PyDict :=
  [("class", .str "car"), ("confidence", .real (9 / 10)),
   ("bbox", .list [.int 1, .int 2, .int 3, .int 4])]

/-- A malformed detection record: the `confidence` key is missing. -/
def sampleBadDet : PyDict :=
  [("class", .str "car"),
   ("bbox", .list [.int 1, .int 2, .int 3, .int 4])]

/-- A two-record batch for `incremental_update` whose second record carries
a malformed detection. -/
def sampleBatch : List PyDict :=
  [[("metadata", .dict sampleMeta), ("detections", .list [.dict sampleDet])],
   [("metadata", .dict sampleMeta2), ("detections", .list [.dict sampleBadDet])]]

/-- A store holding one committed scene (id 1) with one detection,
obtained by running `incremental_update` on a well-formed one-record
batch. -/
def sampleStore : Store :=
  (incremental_update
    [[("metadata", .dict sampleMeta),
      ("detections", .list [.dict sampleDet])]] emptyStore).2

/-- `sampleStore` extended with an annotation on scene 1 and a "train"
dataset assignment of scene 1. -/
def sampleStore2 : Store :=
  (assign_to_dataset [1] "train"
    ( add_annotation 1 [("label_type", .str "bbox")] sampleStore).2).2

/-! ## Theorems -/

/-- C1: `incremental_update` is NOT atomic across the batch.  On the
two-record batch whose second record carries a malformed detection, the
call fails, yet the first record's scene row and detection row remain in
the database after the call: the nested `with self.conn:` block inside
`add_detections` committed the outstanding transaction mid-batch, so the
final rollback only undoes work done after that commit.  This contradicts
the claimed (and clearly intended, given the `with self.conn:` wrapper
around the whole loop) all-or-nothing behaviour. -/
theorem c1_batch_not_atomic :
    (incremental_update sampleBatch emptyStore).1 =
      .error (.keyError "confidence") ∧
    (incremental_update sampleBatch emptyStore).2.current.scenes.length = 1 ∧
    (incremental_update sampleBatch emptyStore).2.current.detections.length = 1 ∧
    (incremental_update sampleBatch emptyStore).2.committed =
      (incremental_update sampleBatch emptyStore).2.current :=
  ⟨rfl, rfl, rfl, rfl⟩

/-- C9: updating with an empty mapping builds the malformed statement
`UPDATE <table> SET  WHERE <pk> = ?`, which the engine rejects as a syntax
error; for a store with no outstanding transaction the call raises and
leaves the stored state unchanged, for all three update operations. -/
theorem c9_empty_update_is_error (scene_id detection_id annotation_id : Int)
    (s : Store) (h : s.current = s.committed) :
    update_scene scene_id [] s = (.error .syntaxError, s) ∧
    update_detection detection_id [] s = (.error .syntaxError, s) ∧
    update_annotation annotation_id [] s = (.error .syntaxError, s) := by
  obtain ⟨c, cur⟩ := s
  simp only at h
  subst h
  exact ⟨rfl, rfl, rfl⟩

/-- Witness for C9 at a concrete store. -/
theorem c9_empty_update_is_error_witness :
    update_scene 1 [] sampleStore = (.error .syntaxError, sampleStore) ∧
    update_detection 1 [] sampleStore = (.error .syntaxError, sampleStore) ∧
    update_annotation 1 [] sampleStore = (.error .syntaxError, sampleStore) :=
  c9_empty_update_is_error 1 1 1 sampleStore rfl

/-- C2: `delete_scene` removes the scene row and (by the cascade declared
in the spec's schema) every detection, annotation, scene-description and
dataset row referencing it; in particular `get_scene_detections` returns
the empty list afterwards, and the deletion is committed. -/
theorem c2_delete_scene_cascade (scene_id : Int) (s : Store) :
    (delete_scene scene_id s).1 = .ok () ∧
    ((delete_scene scene_id s).2.current.scenes.all
      (fun r => !(r.scene_id == .int scene_id))) = true ∧
    ((delete_scene scene_id s).2.current.detections.all
      (fun r => !(r.scene_id == .int scene_id))) = true ∧
    ((delete_scene scene_id s).2.current.annotations.all
      (fun r => !(r.scene_id == .int scene_id))) = true ∧
    ((delete_scene scene_id s).2.current.scene_descriptions.all
      (fun r => !(r.scene_id == .int scene_id))) = true ∧
    ((delete_scene scene_id s).2.current.datasets.all
      (fun r => !(r.scene_id == .int scene_id))) = true ∧
    get_scene_detections scene_id (delete_scene scene_id s).2 = [] ∧
    (delete_scene scene_id s).2.committed =
      (delete_scene scene_id s).2.current := by
  unfold delete_scene withConn
  refine ⟨rfl, ?_, ?_, ?_, ?_, ?_, ?_, rfl⟩
  · simp [List.all_eq_true, List.mem_filter, Store.commit]
  · simp [List.all_eq_true, List.mem_filter, Store.commit]
  · simp [List.all_eq_true, List.mem_filter, Store.commit]
  · simp [List.all_eq_true, List.mem_filter, Store.commit]
  · simp [List.all_eq_true, List.mem_filter, Store.commit]
  · simp [get_scene_detections, Store.commit, List.filter_filter]

lemma insertDatasetRows_committed (rows : List (Value × Value)) (s : Store) :
    (insertDatasetRows rows s).2.committed = s.committed := by
  induction rows generalizing s with
  | nil => rfl
  | cons hd tl ih =>
      obtain ⟨sid, dt⟩ := hd
      unfold insertDatasetRows
      by_cases h : sceneExists s.current sid = true
      · simp only [h, if_true]
        exact ih _
      · simp only [eq_false_of_ne_true h, Bool.false_eq_true, if_false]

lemma insertDatasetRows_fk (rows : List (Value × Value)) (s : Store)
    (h : ∃ p ∈ rows, sceneExists s.current p.1 = false) :
    (insertDatasetRows rows s).1 = .error .fkViolation := by
  induction rows generalizing s with
  | nil => simp at h
  | cons hd tl ih =>
      obtain ⟨sid, dt⟩ := hd
      obtain ⟨p, hp, hex⟩ := h
      unfold insertDatasetRows
      by_cases hhd : sceneExists s.current sid = true
      · simp only [hhd, if_true]
        apply ih
        rcases List.mem_cons.mp hp with rfl | hmem
        · exact absurd hhd (by simp [hex])
        · exact ⟨p, hmem, by simpa [sceneExists] using hex⟩
      · simp only [eq_false_of_ne_true hhd, Bool.false_eq_true, if_false]

lemma detValues_cons_ne_nil {d : PyDict} {ds : List PyDict}
    {rows : List (Value × Value × Value × Value × Value × Value)}
    (hv : detValues (d :: ds) = .ok rows) : rows ≠ [] := by
  unfold detValues at hv
  simp only [bind, Except.bind] at hv
  repeat' split at hv
  all_goals try simp_all [pure, Except.pure]
  subst hv
  exact List.cons_ne_nil _ _

/-- C4: inserting a detection batch, an annotation, a scene description or
dataset assignments for a scene id that does not exist fails with the
engine's referential-integrity error and leaves the store exactly as it
was (no partial write), for any store with no outstanding transaction. -/
theorem c4_referential_integrity (sid : Int) (s : Store)
    (hq : s.current = s.committed)
    (hno : sceneExists s.current (.int sid) = false) :
    (∀ ds rows, ds ≠ [] → detValues ds = .ok rows →
       add_detections sid ds s = (.error .fkViolation, s)) ∧
    (∀ ann vs, annValues ann = .ok vs →
       add_annotation sid ann s = (.error .fkViolation, s)) ∧
    (∀ d c m dv cv mv, toSQL d = .ok dv → toSQL c = .ok cv →
       toSQL m = .ok mv →
       add_scene_description sid d c m s = (.error .fkViolation, s)) ∧
    (∀ ids dt, sid ∈ ids →
       assign_to_dataset ids dt s = (.error .fkViolation, s)) := by
  have hroll : s.rollback = s := by
    obtain ⟨c, cur⟩ := s
    simp only at hq
    subst hq
    rfl
  refine ⟨?_, ?_, ?_, ?_⟩
  · intro ds rows hne hv
    unfold add_detections
    rw [hv]
    obtain ⟨r, rest, rfl⟩ : ∃ r rest, rows = r :: rest := by
      cases ds with
      | nil => exact absurd rfl hne
      | cons d ds' =>
          cases rows with
          | nil => exact absurd rfl (detValues_cons_ne_nil hv)
          | cons r rest => exact ⟨r, rest, rfl⟩
    obtain ⟨cls, conf, x0, y0, x1, y1⟩ := r
    unfold withConn insertDetectionRows
    simp only [hno, Bool.false_eq_true, if_false, hroll]
  · intro ann vs hv
    unfold add_annotation
    rw [hv]
    obtain ⟨lt, desc, cls, x0, y0, x1, y1, ab⟩ := vs
    unfold withConn
    simp only [hno, Bool.false_eq_true, if_false, hroll]
  · intro d c m dv cv mv hd hc hm
    unfold add_scene_description withConn
    rw [hd, hc, hm]
    simp only [hno, Bool.false_eq_true, if_false, hroll]
  · intro ids dt hmem
    have herr : (insertDatasetRows
        (ids.map (fun i => (Value.int i, Value.text dt))) s).1 =
        .error .fkViolation := by
      apply insertDatasetRows_fk
      exact ⟨(Value.int sid, Value.text dt),
        List.mem_map.mpr ⟨sid, hmem, rfl⟩, hno⟩
    have hcom := insertDatasetRows_committed
      (ids.map (fun i => (Value.int i, Value.text dt))) s
    rcases hres : insertDatasetRows
        (ids.map (fun i => (Value.int i, Value.text dt))) s with ⟨e, s'⟩
    rw [hres] at herr hcom
    simp only at herr hcom
    subst herr
    have h2 : s'.rollback = s := by
      unfold Store.rollback
      rw [hcom]
      exact hroll
    show withConn (insertDatasetRows
        (ids.map (fun i => (Value.int i, Value.text dt)))) s =
      (.error .fkViolation, s)
    unfold withConn
    rw [hres]
    show (Except.error Err.fkViolation, s'.rollback) =
      (Except.error Err.fkViolation, s)
    rw [h2]

/-- Witness for C4: a store holding only scene 1 rejects writes that
reference scene 99, for all four operations. -/
theorem c4_referential_integrity_witness :
    add_detections 99 [sampleDet] sampleStore =
      (.error .fkViolation, sampleStore) ∧
    add_annotation 99 [("label_type", .str "bbox")] sampleStore =
      (.error .fkViolation, sampleStore) ∧
    add_scene_description 99 (.str "desc") (.real 1) (.str "v1")
      sampleStore = (.error .fkViolation, sampleStore) ∧
    assign_to_dataset [99] "train" sampleStore =
      (.error .fkViolation, sampleStore) := by
  have T := c4_referential_integrity 99 sampleStore rfl rfl
  exact ⟨T.1 [sampleDet] _ (List.cons_ne_nil _ _) rfl,
         T.2.1 [("label_type", .str "bbox")] _ rfl,
         T.2.2.1 (.str "desc") (.real 1) (.str "v1") _ _ _ rfl rfl rfl,
         T.2.2.2 [99] "train" (List.mem_singleton.mpr rfl)⟩

lemma reqParam_spec {M : PyDict} {k : String} {v : PyVal} {out : Value}
    (h1 : pyGet M k = Option.some v) (h2 : toSQL v = .ok out) :
    reqParam M k = .ok out := by
  unfold reqParam
  rw [h1]
  exact h2

lemma optParam_spec {M : PyDict} {k : String} {out : Value}
    (h : (pyGet M k = Option.none ∧ out = Value.null) ∨
         (∃ v, pyGet M k = Option.some v ∧ toSQL v = .ok out)) :
    optParam M k = .ok out := by
  unfold optParam
  rcases h with ⟨h1, rfl⟩ | ⟨v, h1, h2⟩
  · rw [h1]
  · rw [h1]
    exact h2

/-- C5: a scene created from valid metadata reads back intact: every
required field holds the bound value of the metadata mapping, every
optional field holds its bound value or NULL when absent, keyed by column
name.  Freshness of the auto-assigned id is the engine's rowid
invariant. -/
theorem c5_create_scene_roundtrip
    (M : PyDict) (s : Store)
    (vts vcam vmp : PyVal) (ts lat lon res cam mp : Value)
    (hts1 : pyGet M "timestamp" = Option.some vts)
    (hts2 : toSQL vts = .ok ts)
    (hlat : (pyGet M "latitude" = Option.none ∧ lat = Value.null) ∨
            (∃ v, pyGet M "latitude" = Option.some v ∧ toSQL v = .ok lat))
    (hlon : (pyGet M "longitude" = Option.none ∧ lon = Value.null) ∨
            (∃ v, pyGet M "longitude" = Option.some v ∧ toSQL v = .ok lon))
    (hres : (pyGet M "resolution" = Option.none ∧ res = Value.null) ∨
            (∃ v, pyGet M "resolution" = Option.some v ∧ toSQL v = .ok res))
    (hcam1 : pyGet M "camera_id" = Option.some vcam)
    (hcam2 : toSQL vcam = .ok cam)
    (hmp1 : pyGet M "media_path" = Option.some vmp)
    (hmp2 : toSQL vmp = .ok mp)
    (hfresh : ∀ r ∈ s.current.scenes,
      r.scene_id ≠ .int s.current.next_scene_id) :
    ∃ i s', create_scene M s = (.ok i, s') ∧
      get_scene i s' = Option.some (.mapped
        [("scene_id", .int i), ("timestamp", ts), ("latitude", lat),
         ("longitude", lon), ("resolution", res), ("camera_id", cam),
         ("media_path", mp)]) := by
  have hsv : sceneValues M = .ok (ts, lat, lon, res, cam, mp) := by
    unfold sceneValues
    simp only [reqParam_spec hts1 hts2, optParam_spec hlat, optParam_spec hlon,
      optParam_spec hres, reqParam_spec hcam1 hcam2, reqParam_spec hmp1 hmp2,
      bind, Except.bind, pure, Except.pure]
  refine ⟨s.current.next_scene_id,
    { s with current := { s.current with
        scenes := s.current.scenes ++
          [⟨.int s.current.next_scene_id, ts, lat, lon, res, cam, mp⟩],
        next_scene_id := s.current.next_scene_id + 1 } }, ?_, ?_⟩
  · show add_scene M s = _
    unfold add_scene
    rw [hsv]
  · unfold get_scene
    rw [List.find?_append]
    have h1 : s.current.scenes.find?
        (fun r => r.scene_id == Value.int s.current.next_scene_id) =
        Option.none :=
      List.find?_eq_none.mpr (fun x hx => by simp [hfresh x hx])
    rw [h1]
    simp [List.find?, row_to_dict, scenesColumns, SceneRow.toRow]

/-- Witness for C5: metadata with the optional fields absent reads back
with NULL in those fields. -/
theorem c5_create_scene_roundtrip_witness :
    ∃ i s', create_scene sampleMeta emptyStore = (.ok i, s') ∧
      get_scene i s' = Option.some (.mapped
        [("scene_id", .int i), ("timestamp", .text "2024-01-01T00:00:00"),
         ("latitude", .null), ("longitude", .null), ("resolution", .null),
         ("camera_id", .text "cam1"), ("media_path", .text "/data/a.jpg")]) :=
  c5_create_scene_roundtrip sampleMeta emptyStore
    (.str "2024-01-01T00:00:00") (.str "cam1") (.str "/data/a.jpg")
    (.text "2024-01-01T00:00:00") .null .null .null
    (.text "cam1") (.text "/data/a.jpg")
    rfl rfl (Or.inl ⟨rfl, rfl⟩) (Or.inl ⟨rfl, rfl⟩) (Or.inl ⟨rfl, rfl⟩)
    rfl rfl rfl rfl
    (fun r hr => absurd hr (by simp [emptyStore, emptyDB]))

lemma processDescription_error (scene : PyDict) (sid : Int) (s2 : Store)
    (hd : (pyGet scene "description").isSome = true)
    (hcm : pyGet scene "confidence" = Option.none ∨
           pyGet scene "model_version" = Option.none) :
    ∃ e, (processDescription scene sid s2).1 = .error e := by
  unfold processDescription
  rcases hds : pyGet scene "description" with _ | dsc
  · rw [hds] at hd
    simp at hd
  · rcases hcm with hc | hm2
    · simp only [hc]
      exact ⟨_, rfl⟩
    · rcases hc2 : pyGet scene "confidence" with _ | cv
      · exact ⟨_, rfl⟩
      · simp only [hm2]
        exact ⟨_, rfl⟩

lemma processScene_desc_error (scene : PyDict) (s : Store)
    (hd : (pyGet scene "description").isSome = true)
    (hcm : pyGet scene "confidence" = Option.none ∨
           pyGet scene "model_version" = Option.none) :
    ∃ e, (processScene scene s).1 = .error e := by
  unfold processScene
  rcases hm : pyGet scene "metadata" with _ | mv
  · exact ⟨_, rfl⟩
  · cases mv with
    | dict md =>
        rcases ha : add_scene md s with ⟨ar, s1⟩
        cases ar with
        | error e => simp only [ha]; exact ⟨e, rfl⟩
        | ok sid =>
            simp only [ha]
            rcases hdet : pyGet scene "detections" with _ | dv
            · simp only [hdet]
              exact processDescription_error scene sid s1 hd hcm
            · simp only [hdet]
              rcases hadl : asDictList dv with e | ds
              · simp only [hadl]
                exact ⟨e, rfl⟩
              · simp only [hadl]
                rcases had : add_detections sid ds s1 with ⟨dr, s2⟩
                cases dr with
                | error e => simp only [had]; exact ⟨e, rfl⟩
                | ok u =>
                    simp only [had]
                    exact processDescription_error scene sid s2 hd hcm
    | null => exact ⟨_, rfl⟩
    | int i => exact ⟨_, rfl⟩
    | real q => exact ⟨_, rfl⟩
    | str s' => exact ⟨_, rfl⟩
    | list xs => exact ⟨_, rfl⟩

lemma processScenes_error (l : List PyDict) (s : Store) (r : PyDict)
    (hr : r ∈ l)
    (hd : (pyGet r "description").isSome = true)
    (hcm : pyGet r "confidence" = Option.none ∨
           pyGet r "model_version" = Option.none) :
    ∃ e, (processScenes l s).1 = .error e := by
  induction l generalizing s with
  | nil => simp at hr
  | cons a tl ih =>
      unfold processScenes
      rcases hp : processScene a s with ⟨pr, s'⟩
      cases pr with
      | error e => exact ⟨e, rfl⟩
      | ok u =>
          rcases List.mem_cons.mp hr with heq | hmem
          · obtain ⟨e, he⟩ := processScene_desc_error r s hd hcm
            rw [heq, hp] at he
            simp at he
          · exact ih s' hmem

/-- C10: an `incremental_update` batch containing a record that has a
`description` key but lacks `confidence` or `model_version` raises an
error (the record triple is all-or-nothing: the missing key is subscripted
unconditionally once `description` is present). -/
theorem c10_description_triple_required
    (new_scenes : List PyDict) (s : Store) (r : PyDict)
    (hr : r ∈ new_scenes)
    (hd : (pyGet r "description").isSome = true)
    (hcm : pyGet r "confidence" = Option.none ∨
           pyGet r "model_version" = Option.none) :
    ∃ e, (incremental_update new_scenes s).1 = .error e := by
  obtain ⟨e, he⟩ := processScenes_error new_scenes s r hr hd hcm
  unfold incremental_update withConn
  rcases hp : processScenes new_scenes s with ⟨pr, s'⟩
  rw [hp] at he
  simp only at he
  cases pr with
  | error e' => exact ⟨e', rfl⟩
  | ok u => simp at he

/-- Witness for C10: a one-record batch with a description but no
confidence fails. -/
theorem c10_description_triple_required_witness :
    ∃ e, (incremental_update
      [[("metadata", .dict sampleMeta), ("description", .str "a scene")]]
      emptyStore).1 = .error e :=
  c10_description_triple_required
    [[("metadata", .dict sampleMeta), ("description", .str "a scene")]]
    emptyStore
    [("metadata", .dict sampleMeta), ("description", .str "a scene")]
    (List.mem_singleton.mpr rfl) rfl (Or.inl rfl)

lemma charListLe_total : ∀ (a b : List Char),
    charListLe a b = true ∨ charListLe b a = true
  | [], _ => Or.inl rfl
  | _ :: _, [] => Or.inr rfl
  | a :: as, b :: bs => by
      rcases Nat.lt_trichotomy a.toNat b.toNat with h | h | h
      · left
        simp [charListLe, h]
      · have h1 : ¬ a.toNat < b.toNat := by omega
        have h2 : ¬ b.toNat < a.toNat := by omega
        rcases charListLe_total as bs with hh | hh
        · left
          simp [charListLe, h1, h2, hh]
        · right
          simp [charListLe, h1, h2, hh]
      · right
        simp [charListLe, h]

lemma charListLe_trans : ∀ {a b c : List Char},
    charListLe a b = true → charListLe b c = true → charListLe a c = true
  | [], _, _, _, _ => rfl
  | _ :: _, [], _, h1, _ => by simp [charListLe] at h1
  | _ :: _, _ :: _, [], _, h2 => by simp [charListLe] at h2
  | a :: as, b :: bs, c :: cs, h1, h2 => by
      simp only [charListLe] at h1 h2 ⊢
      by_cases hab : a.toNat < b.toNat
      · by_cases hbc : b.toNat < c.toNat
        · simp [show a.toNat < c.toNat by omega]
        · rw [if_neg hbc] at h2
          by_cases hcb : c.toNat < b.toNat
          · rw [if_pos hcb] at h2
            exact absurd h2 (by simp)
          · rw [if_neg hcb] at h2
            simp [show a.toNat < c.toNat by omega]
      · rw [if_neg hab] at h1
        by_cases hba : b.toNat < a.toNat
        · rw [if_pos hba] at h1
          exact absurd h1 (by simp)
        · rw [if_neg hba] at h1
          by_cases hbc : b.toNat < c.toNat
          · simp [show a.toNat < c.toNat by omega]
          · rw [if_neg hbc] at h2
            by_cases hcb : c.toNat < b.toNat
            · rw [if_pos hcb] at h2
              exact absurd h2 (by simp)
            · rw [if_neg hcb] at h2
              rw [if_neg (show ¬ a.toNat < c.toNat by omega),
                if_neg (show ¬ c.toNat < a.toNat by omega)]
              exact charListLe_trans h1 h2

lemma strLe_total (a b : String) : strLe a b = true ∨ strLe b a = true :=
  charListLe_total a.data b.data

lemma strLe_trans {a b c : String} (h1 : strLe a b = true)
    (h2 : strLe b c = true) : strLe a c = true :=
  charListLe_trans h1 h2

lemma Value.le_iff {a b : Value} :
    a.le b = true ↔
      a.rank < b.rank ∨ (a.rank = b.rank ∧
        (a.num < b.num ∨ (a.num = b.num ∧ strLe a.str b.str = true))) := by
  simp [Value.le, Bool.or_eq_true, Bool.and_eq_true, decide_eq_true_eq]

lemma Value.leTotal (a b : Value) : a.le b = true ∨ b.le a = true := by
  rw [Value.le_iff, Value.le_iff]
  rcases lt_trichotomy a.rank b.rank with h | h | h
  · exact Or.inl (Or.inl h)
  · rcases lt_trichotomy a.num b.num with h2 | h2 | h2
    · exact Or.inl (Or.inr ⟨h, Or.inl h2⟩)
    · rcases strLe_total a.str b.str with h3 | h3
      · exact Or.inl (Or.inr ⟨h, Or.inr ⟨h2, h3⟩⟩)
      · exact Or.inr (Or.inr ⟨h.symm, Or.inr ⟨h2.symm, h3⟩⟩)
    · exact Or.inr (Or.inr ⟨h.symm, Or.inl h2⟩)
  · exact Or.inr (Or.inl h)

lemma Value.leTrans {a b c : Value} (h1 : a.le b = true)
    (h2 : b.le c = true) : a.le c = true := by
  rw [Value.le_iff] at h1 h2 ⊢
  rcases h1 with h1 | ⟨he1, h1⟩
  · rcases h2 with h2 | ⟨he2, _⟩
    · exact Or.inl (h1.trans h2)
    · exact Or.inl (he2 ▸ h1)
  · rcases h2 with h2 | ⟨he2, h2⟩
    · exact Or.inl (he1 ▸ h2)
    · refine Or.inr ⟨he1.trans he2, ?_⟩
      rcases h1 with h1 | ⟨hn1, h1⟩
      · rcases h2 with h2 | ⟨hn2, _⟩
        · exact Or.inl (h1.trans h2)
        · exact Or.inl (hn2 ▸ h1)
      · rcases h2 with h2 | ⟨hn2, h2⟩
        · exact Or.inl (hn1 ▸ h2)
        · exact Or.inr ⟨hn1.trans hn2, strLe_trans h1 h2⟩

instance : IsTotal SceneRow sceneDesc :=
  ⟨fun a b => (Value.leTotal b.timestamp a.timestamp).imp id id⟩

instance : IsTrans SceneRow sceneDesc :=
  ⟨fun _ _ _ hab hbc => Value.leTrans hbc hab⟩

/-- C7: `get_all_scenes` returns exactly the `min limit total` scenes of
greatest timestamp, ordered by timestamp descending: the stored scenes
split (up to permutation) into the returned prefix `tops` and a remainder
`rest`, the returned rows are precisely `tops` marshalled, `tops` is
sorted descending, and every returned scene's timestamp is at least every
non-returned scene's timestamp. -/
theorem c7_get_all_scenes_spec (n : Nat) (s : Store) :
    ∃ tops rest : List SceneRow,
      s.current.scenes.Perm (tops ++ rest) ∧
      get_all_scenes n s =
        tops.map (fun r => .mapped (row_to_dict r.toRow scenesColumns)) ∧
      tops.length = min n s.current.scenes.length ∧
      tops.Sorted sceneDesc ∧
      ∀ x ∈ tops, ∀ y ∈ rest, Value.le y.timestamp x.timestamp = true := by
  have hs := List.sorted_insertionSort sceneDesc s.current.scenes
  refine ⟨(List.insertionSort sceneDesc s.current.scenes).take n,
          (List.insertionSort sceneDesc s.current.scenes).drop n,
          ?_, rfl, ?_, ?_, ?_⟩
  · rw [List.take_append_drop]
    exact (List.perm_insertionSort sceneDesc s.current.scenes).symm
  · rw [List.length_take,
      (List.perm_insertionSort sceneDesc s.current.scenes).length_eq]
  · exact List.Pairwise.sublist (List.take_sublist n _) hs
  · have hsplit := hs
    rw [← List.take_append_drop n
      (List.insertionSort sceneDesc s.current.scenes)] at hsplit
    exact fun x hx y hy => (List.pairwise_append.mp hsplit).2.2 x hx y hy

/-- C3 counterexample: the claim that no read operation ever returns a
positional tuple fails — `get_scenes_by_time_range` on a store holding one
scene returns a raw positional row, not a column-name mapping (the source
returns `fetchall()` unconverted; so do `get_detections_by_class` and
`get_training_data`). -/
theorem c3_positional_rows_counterexample :
    ¬ (∀ r ∈ get_scenes_by_time_range "2023" "2025" sampleStore,
        r.isMapped = true) := by
  intro h
  have hx : (get_scenes_by_time_range "2023" "2025" sampleStore).all
      RRow.isMapped = true :=
    List.all_eq_true.mpr h
  rw [show (get_scenes_by_time_range "2023" "2025" sampleStore).all
      RRow.isMapped = false from rfl] at hx
  exact Bool.noConfusion hx

/-- C3 amended: the five reads that use `_row_to_dict` (`get_scene`,
`get_detection`, `get_annotation`, `get_all_scenes`,
`get_scene_detections`) return each row as a mapping from column name to
value in column-declaration order, but `get_scenes_by_time_range`,
`get_detections_by_class` and `get_training_data` return raw positional
rows to the caller. -/
theorem c3_read_marshalling :
    (∀ i s r, get_scene i s = Option.some r →
      ∃ kvs, r = .mapped kvs ∧ kvs.map Prod.fst = scenesColumns) ∧
    (∀ i s r, get_detection i s = Option.some r →
      ∃ kvs, r = .mapped kvs ∧ kvs.map Prod.fst = detectionsColumns) ∧
    (∀ i s r, get_annotation i s = Option.some r →
      ∃ kvs, r = .mapped kvs ∧ kvs.map Prod.fst = annotationsColumns) ∧
    (∀ n s, ∀ r ∈ get_all_scenes n s,
      ∃ kvs, r = .mapped kvs ∧ kvs.map Prod.fst = scenesColumns) ∧
    (∀ i s, ∀ r ∈ get_scene_detections i s,
      ∃ kvs, r = .mapped kvs ∧ kvs.map Prod.fst = detectionsColumns) ∧
    (∀ a b s, ∀ r ∈ get_scenes_by_time_range a b s, r.isMapped = false) ∧
    (∀ c q s, ∀ r ∈ get_detections_by_class c q s, r.isMapped = false) ∧
    (∀ s, ∀ r ∈ get_training_data s, r.isMapped = false) := by
  refine ⟨?_, ?_, ?_, ?_, ?_, ?_, ?_, ?_⟩
  · intro i s r h
    unfold get_scene at h
    rcases hf : s.current.scenes.find?
        (fun x => x.scene_id == Value.int i) with _ | x
    · rw [hf] at h
      exact absurd h (by simp)
    · rw [hf] at h
      simp only [Option.some.injEq] at h
      exact ⟨_, h.symm, rfl⟩
  · intro i s r h
    unfold get_detection at h
    rcases hf : s.current.detections.find?
        (fun x => x.detection_id == Value.int i) with _ | x
    · rw [hf] at h
      exact absurd h (by simp)
    · rw [hf] at h
      simp only [Option.some.injEq] at h
      exact ⟨_, h.symm, rfl⟩
  · intro i s r h
    unfold get_annotation at h
    rcases hf : s.current.annotations.find?
        (fun x => x.annotation_id == Value.int i) with _ | x
    · rw [hf] at h
      exact absurd h (by simp)
    · rw [hf] at h
      simp only [Option.some.injEq] at h
      exact ⟨_, h.symm, rfl⟩
  · intro n s r h
    obtain ⟨x, _, rfl⟩ := List.mem_map.mp h
    exact ⟨_, rfl, rfl⟩
  · intro i s r h
    obtain ⟨x, _, rfl⟩ := List.mem_map.mp h
    exact ⟨_, rfl, rfl⟩
  · intro a b s r h
    obtain ⟨x, _, rfl⟩ := List.mem_map.mp h
    rfl
  · intro c q s r h
    obtain ⟨x, _, rfl⟩ := List.mem_map.mp h
    rfl
  · intro s r h
    obtain ⟨x, _, rfl⟩ := List.mem_map.mp h
    rfl

/-- Witness for C3 amended: on a concrete store all eight reads return
rows of the proved shapes. -/
theorem c3_read_marshalling_witness :
    (∃ kvs, get_scene 1 sampleStore2 = Option.some (.mapped kvs) ∧
      kvs.map Prod.fst = scenesColumns) ∧
    (∃ kvs, get_detection 1 sampleStore2 = Option.some (.mapped kvs) ∧
      kvs.map Prod.fst = detectionsColumns) ∧
    (∃ kvs, get_annotation 1 sampleStore2 = Option.some (.mapped kvs) ∧
      kvs.map Prod.fst = annotationsColumns) ∧
    (get_all_scenes 5 sampleStore2).all RRow.isMapped = true ∧
    (get_scene_detections 1 sampleStore2).all RRow.isMapped = true ∧
    (get_scenes_by_time_range "2023" "2025" sampleStore2).all
      (fun r => !r.isMapped) = true ∧
    (get_detections_by_class "car" (1 / 2) sampleStore2).all
      (fun r => !r.isMapped) = true ∧
    (get_training_data sampleStore2).all (fun r => !r.isMapped) = true := by
  refine ⟨?_, ?_, ?_, ?_, ?_, ?_, ?_, ?_⟩
  · obtain ⟨kvs, h1, h2⟩ := c3_read_marshalling.1 1 sampleStore2 _ rfl
    refine ⟨kvs, ?_, h2⟩
    rw [← h1]
    rfl
  · obtain ⟨kvs, h1, h2⟩ := c3_read_marshalling.2.1 1 sampleStore2 _ rfl
    refine ⟨kvs, ?_, h2⟩
    rw [← h1]
    rfl
  · obtain ⟨kvs, h1, h2⟩ := c3_read_marshalling.2.2.1 1 sampleStore2 _ rfl
    refine ⟨kvs, ?_, h2⟩
    rw [← h1]
    rfl
  · refine List.all_eq_true.mpr (fun r hr => ?_)
    obtain ⟨kvs, h1, _⟩ :=
      c3_read_marshalling.2.2.2.1 5 sampleStore2 r hr
    simp [h1, RRow.isMapped]
  · refine List.all_eq_true.mpr (fun r hr => ?_)
    obtain ⟨kvs, h1, _⟩ :=
      c3_read_marshalling.2.2.2.2.1 1 sampleStore2 r hr
    simp [h1, RRow.isMapped]
  · refine List.all_eq_true.mpr (fun r hr => ?_)
    simp [c3_read_marshalling.2.2.2.2.2.1 "2023" "2025" sampleStore2 r hr]
  · refine List.all_eq_true.mpr (fun r hr => ?_)
    simp [c3_read_marshalling.2.2.2.2.2.2.1 "car" (1 / 2) sampleStore2 r hr]
  · refine List.all_eq_true.mpr (fun r hr => ?_)
    simp [c3_read_marshalling.2.2.2.2.2.2.2 sampleStore2 r hr]

lemma sceneGetCol_setCol_self (r : SceneRow) (k : String) (v : Value)
    (hk : k ∈ scenesColumns) :
    sceneGetCol (sceneSetCol r k v) k = Option.some v := by
  fin_cases hk <;> rfl

lemma sceneGetCol_setCol_ne (r : SceneRow) (k k' : String) (v : Value)
    (hk : k ∈ scenesColumns) (hk' : k' ∈ scenesColumns) (hne : k ≠ k') :
    sceneGetCol (sceneSetCol r k v) k' = sceneGetCol r k' := by
  fin_cases hk <;> fin_cases hk' <;>
    first
    | exact absurd rfl hne
    | rfl

lemma applySceneSets_cons (r : SceneRow) (a : String × Value)
    (tl : List (String × Value)) :
    applySceneSets r (a :: tl) = applySceneSets (sceneSetCol r a.1 a.2) tl :=
  rfl

lemma applySceneSets_getCol_not_mem (r : SceneRow)
    (assigns : List (String × Value)) (k : String)
    (hk : k ∈ scenesColumns)
    (hall : ∀ kv ∈ assigns, kv.1 ∈ scenesColumns)
    (hnm : k ∉ assigns.map Prod.fst) :
    sceneGetCol (applySceneSets r assigns) k = sceneGetCol r k := by
  induction assigns generalizing r with
  | nil => rfl
  | cons a tl ih =>
      rw [applySceneSets_cons]
      have h1 : k ∉ tl.map Prod.fst := fun h => hnm (by simp [h])
      have h2 : a.1 ≠ k := fun heq => hnm (by simp [heq.symm])
      rw [ih (sceneSetCol r a.1 a.2)
        (fun kv hkv => hall kv (List.mem_cons_of_mem a hkv)) h1]
      exact sceneGetCol_setCol_ne r a.1 k a.2 (hall a (List.mem_cons_self a tl)) hk h2

lemma applySceneSets_getCol_mem (r : SceneRow)
    (assigns : List (String × Value)) (k : String) (v : Value)
    (hk : k ∈ scenesColumns)
    (hall : ∀ kv ∈ assigns, kv.1 ∈ scenesColumns)
    (hnd : (assigns.map Prod.fst).Nodup)
    (hmem : (k, v) ∈ assigns) :
    sceneGetCol (applySceneSets r assigns) k = Option.some v := by
  induction assigns generalizing r with
  | nil => exact absurd hmem (List.not_mem_nil _)
  | cons a tl ih =>
      rw [applySceneSets_cons]
      rcases List.mem_cons.mp hmem with heq | hmem'
      · cases heq
        have h1 : k ∉ tl.map Prod.fst := by
          rw [List.map_cons, List.nodup_cons] at hnd
          exact hnd.1
        rw [applySceneSets_getCol_not_mem (sceneSetCol r k v) tl k hk
          (fun kv hkv => hall kv (List.mem_cons_of_mem _ hkv)) h1]
        exact sceneGetCol_setCol_self r k v hk
      · exact ih (sceneSetCol r a.1 a.2)
          (fun kv hkv => hall kv (List.mem_cons_of_mem a hkv))
          (by rw [List.map_cons, List.nodup_cons] at hnd; exact hnd.2) hmem'

lemma bindParams_length {U : PyDict} {vals : List Value}
    (hb : bindParams U = .ok vals) : vals.length = U.length := by
  induction U generalizing vals with
  | nil =>
      simp only [bindParams] at hb
      cases hb
      rfl
  | cons a tl ih =>
      simp only [bindParams, bind, Except.bind] at hb
      rcases h1 : toSQL a.2 with e | v1
      · rw [h1] at hb
        exact absurd hb (by simp)
      · rw [h1] at hb
        rcases h2 : bindParams tl with e | vs
        · rw [h2] at hb
          exact absurd hb (by simp)
        · rw [h2] at hb
          simp only [pure, Except.pure, Except.ok.injEq] at hb
          subst hb
          simp [ih h2]

lemma bindParams_zip_mem {U : PyDict} {vals : List Value}
    (hb : bindParams U = .ok vals)
    {k : String} {pv : PyVal} (hmem : (k, pv) ∈ U) :
    ∃ v, toSQL pv = .ok v ∧ (k, v) ∈ (U.map Prod.fst).zip vals := by
  induction U generalizing vals with
  | nil => exact absurd hmem (List.not_mem_nil _)
  | cons a tl ih =>
      simp only [bindParams, bind, Except.bind] at hb
      rcases h1 : toSQL a.2 with e | v1
      · rw [h1] at hb
        exact absurd hb (by simp)
      · rw [h1] at hb
        rcases h2 : bindParams tl with e | vs
        · rw [h2] at hb
          exact absurd hb (by simp)
        · rw [h2] at hb
          simp only [pure, Except.pure, Except.ok.injEq] at hb
          subst hb
          rcases List.mem_cons.mp hmem with heq | hmem'
          · cases heq
            exact ⟨v1, h1, by simp⟩
          · obtain ⟨v, hv1, hv2⟩ := ih h2 hmem'
            exact ⟨v, hv1, by simp [hv2]⟩

/-- C8: a partial update on an existing scene with a non-empty mapping of
valid column names succeeds, sets exactly the named columns to their bound
values on the matching row, leaves that row's other columns unchanged,
leaves every other row unchanged, leaves every other table unchanged, and
commits. -/
theorem c8_update_scene_frame (scene_id : Int) (U : PyDict)
    (vals : List Value) (s : Store)
    (hne : U ≠ [])
    (hcols : ∀ kv ∈ U, kv.1 ∈ scenesColumns)
    (hnd : (U.map Prod.fst).Nodup)
    (hb : bindParams U = .ok vals) :
    (update_scene scene_id U s).1 = .ok () ∧
    (update_scene scene_id U s).2.current.detections =
      s.current.detections ∧
    (update_scene scene_id U s).2.current.annotations =
      s.current.annotations ∧
    (update_scene scene_id U s).2.current.scene_descriptions =
      s.current.scene_descriptions ∧
    (update_scene scene_id U s).2.current.datasets = s.current.datasets ∧
    (update_scene scene_id U s).2.current.scenes =
      s.current.scenes.map (fun r =>
        if r.scene_id == .int scene_id then
          applySceneSets r ((U.map Prod.fst).zip vals)
        else r) ∧
    (∀ r : SceneRow, ∀ k pv, (k, pv) ∈ U →
      ∃ v, toSQL pv = .ok v ∧
        sceneGetCol (applySceneSets r ((U.map Prod.fst).zip vals)) k =
          Option.some v) ∧
    (∀ r : SceneRow, ∀ k, k ∈ scenesColumns → k ∉ U.map Prod.fst →
      sceneGetCol (applySceneSets r ((U.map Prod.fst).zip vals)) k =
        sceneGetCol r k) ∧
    (update_scene scene_id U s).2.committed =
      (update_scene scene_id U s).2.current := by
  have hlen : vals.length = U.length := bindParams_length hb
  have hfst : ((U.map Prod.fst).zip vals).map Prod.fst = U.map Prod.fst :=
    List.map_fst_zip _ _ (by simp [hlen])
  have hall : ∀ kv ∈ (U.map Prod.fst).zip vals, kv.1 ∈ scenesColumns := by
    intro kv hkv
    have h1 : kv.1 ∈ ((U.map Prod.fst).zip vals).map Prod.fst :=
      List.mem_map_of_mem Prod.fst hkv
    rw [hfst] at h1
    obtain ⟨⟨k', pv'⟩, hm, heq⟩ := List.mem_map.mp h1
    exact heq ▸ hcols _ hm
  have hndz : (((U.map Prod.fst).zip vals).map Prod.fst).Nodup := by
    rw [hfst]
    exact hnd
  have hempty : U.isEmpty = false := by
    cases U with
    | nil => exact absurd rfl hne
    | cons a l => rfl
  have hany : (U.any fun kv => !(scenesColumns.contains kv.1)) = false := by
    rw [List.any_eq_false]
    intro kv hkv
    simp only [Bool.not_eq_true', Bool.not_eq_false]
    exact List.elem_iff.mpr (hcols kv hkv)
  have hkey : update_scene scene_id U s = (.ok (),
      Store.commit { s with current := { s.current with
        scenes := s.current.scenes.map (fun r =>
          if r.scene_id == .int scene_id then
            applySceneSets r ((U.map Prod.fst).zip vals)
          else r) } }) := by
    unfold update_scene withConn
    simp only [hempty, hany, hb, Bool.false_eq_true, if_false]
  refine ⟨?_, ?_, ?_, ?_, ?_, ?_, ?_, ?_, ?_⟩
  · rw [hkey]
  · rw [hkey]
    rfl
  · rw [hkey]
    rfl
  · rw [hkey]
    rfl
  · rw [hkey]
    rfl
  · rw [hkey]
    rfl
  · intro r k pv hmem
    obtain ⟨v, hv1, hv2⟩ := bindParams_zip_mem hb hmem
    have hk : k ∈ scenesColumns := hcols (k, pv) hmem
    exact ⟨v, hv1, applySceneSets_getCol_mem r _ k v hk hall hndz hv2⟩
  · intro r k hk hnm
    refine applySceneSets_getCol_not_mem r _ k hk hall ?_
    rw [hfst]
    exact hnm
  · rw [hkey]
    rfl

/-- Witness for C8: `update_scene(1, {"latitude": 12.5})` on the sample
store succeeds and leaves the detections table unchanged, and on any row
sets `latitude` while preserving `media_path`. -/
theorem c8_update_scene_frame_witness :
    (update_scene 1 [("latitude", .real (25 / 2))] sampleStore).1 =
      .ok () ∧
    (update_scene 1 [("latitude", .real (25 / 2))] sampleStore).2.current.detections =
      sampleStore.current.detections ∧
    (∃ v, toSQL (.real (25 / 2)) = .ok v ∧
      ∀ r : SceneRow,
        sceneGetCol (applySceneSets r
          ((([("latitude", PyVal.real (25 / 2))].map Prod.fst)).zip
            [Value.real (25 / 2)])) "latitude" = Option.some v) := by
  have T := c8_update_scene_frame 1 [("latitude", .real (25 / 2))]
    [.real (25 / 2)] sampleStore (List.cons_ne_nil _ _)
    (by
      intro kv hkv
      rcases List.mem_singleton.mp hkv with rfl
      decide)
    (by decide) rfl
  refine ⟨T.1, T.2.1, ⟨.real (25 / 2), rfl, ?_⟩⟩
  intro r
  obtain ⟨v, hv1, hv2⟩ := T.2.2.2.2.2.2.1 r "latitude" (.real (25 / 2))
    (List.mem_singleton.mpr rfl)
  cases hv1
  exact hv2

lemma countP_const {α : Type} {l : List α} {p : α → Bool} {c : Bool}
    (h : ∀ x ∈ l, p x = c) : l.countP p = if c then l.length else 0 := by
  induction l with
  | nil => cases c <;> simp
  | cons a tl ih =>
      rw [List.countP_cons, ih (fun x hx => h x (List.mem_cons_of_mem _ hx)),
        h a (List.mem_cons_self _ _)]
      cases c <;> simp [Nat.add_comm]

lemma sum_map_ite {α : Type} (l : List α) (q : α → Bool) (c : Nat) :
    (l.map (fun a => if q a then c else 0)).sum = l.countP q * c := by
  induction l with
  | nil => simp
  | cons a tl ih =>
      rw [List.map_cons, List.sum_cons, ih, List.countP_cons]
      by_cases h : q a = true
      · simp only [h, if_true]
        ring
      · simp only [h, if_false]
        simp

lemma descPad_length (db : DB) (sc : SceneRow) (ds : DatasetRow) :
    (descPad db sc ds).length =
      max 1 ((db.scene_descriptions.filter
        (fun d => d.scene_id == sc.scene_id)).length) := by
  unfold descPad
  rcases h : db.scene_descriptions.filter (fun d => d.scene_id == sc.scene_id)
    with _ | ⟨d, ms⟩
  · simp [h]
  · simp [h]

lemma descPad_mem {db : DB} {sc : SceneRow} {ds : DatasetRow}
    {t : SceneRow × DatasetRow × Option SceneDescriptionRow}
    (ht : t ∈ descPad db sc ds) :
    t.1 = sc ∧ t.2.1 = ds ∧
      (t.2.2 = Option.none ∨ ∃ d, t.2.2 = Option.some d ∧
        d ∈ db.scene_descriptions.filter
          (fun x => x.scene_id == sc.scene_id)) := by
  simp only [descPad] at ht
  split at ht
  · rcases List.mem_singleton.mp ht with rfl
    exact ⟨rfl, rfl, Or.inl rfl⟩
  · obtain ⟨d, hd, rfl⟩ := List.mem_map.mp ht
    exact ⟨rfl, rfl, Or.inr ⟨d, rfl, hd⟩⟩

lemma countP_descPad (db : DB) (v : Value) (sc : SceneRow) (ds : DatasetRow)
    (p : SceneRow × DatasetRow × Option SceneDescriptionRow → Bool)
    (hp : ∀ t, p t =
      (decide (t.1.scene_id = v) &&
        (t.2.1.dataset_type == Value.text "train"))) :
    (descPad db sc ds).countP p =
      if decide (sc.scene_id = v) && (ds.dataset_type == Value.text "train")
      then max 1 ((db.scene_descriptions.filter
        (fun d => d.scene_id == sc.scene_id)).length)
      else 0 := by
  have hconst : ∀ t ∈ descPad db sc ds, p t =
      (decide (sc.scene_id = v) &&
        (ds.dataset_type == Value.text "train")) := by
    intro t ht
    obtain ⟨h1, h2, _⟩ := descPad_mem ht
    rw [hp t, h1, h2]
  rw [countP_const hconst, descPad_length]

lemma countP_sceneJoin (db : DB) (v : Value) (sc : SceneRow)
    (p : SceneRow × DatasetRow × Option SceneDescriptionRow → Bool)
    (hp : ∀ t, p t =
      (decide (t.1.scene_id = v) &&
        (t.2.1.dataset_type == Value.text "train"))) :
    (sceneJoin db sc).countP p =
      if decide (sc.scene_id = v)
      then (db.datasets.countP (fun ds =>
          decide (ds.scene_id = v) &&
            (ds.dataset_type == Value.text "train"))) *
        max 1 (db.scene_descriptions.countP (fun d => decide (d.scene_id = v)))
      else 0 := by
  unfold sceneJoin
  rw [List.countP_flatMap]
  by_cases hsc : sc.scene_id = v
  · have hterm : ∀ ds ∈ db.datasets.filter
        (fun ds => ds.scene_id == sc.scene_id),
        (List.countP p ∘ descPad db sc) ds =
          (fun ds => if ds.dataset_type == Value.text "train"
            then max 1 ((db.scene_descriptions.filter
              (fun d => d.scene_id == sc.scene_id)).length)
            else 0) ds := by
      intro ds _
      show (descPad db sc ds).countP p = _
      rw [countP_descPad db v sc ds p hp]
      simp [hsc]
    rw [List.map_congr_left hterm, sum_map_ite, List.countP_filter,
      if_pos (by simp [hsc])]
    have hleft : (db.datasets.countP (fun ds =>
        (ds.dataset_type == Value.text "train") &&
          (ds.scene_id == sc.scene_id))) =
        db.datasets.countP (fun ds => decide (ds.scene_id = v) &&
          (ds.dataset_type == Value.text "train")) := by
      refine List.countP_congr (fun ds _ => ?_)
      rw [hsc]
      simp [Bool.and_comm]
    have hright : (db.scene_descriptions.filter
        (fun d => d.scene_id == sc.scene_id)).length =
        db.scene_descriptions.countP (fun d => decide (d.scene_id = v)) := by
      rw [← List.countP_eq_length_filter]
      refine List.countP_congr (fun d _ => ?_)
      rw [hsc]
      simp
    rw [hleft, hright]
  · have hterm : ∀ ds ∈ db.datasets.filter
        (fun ds => ds.scene_id == sc.scene_id),
        (List.countP p ∘ descPad db sc) ds = (fun _ => (0 : Nat)) ds := by
      intro ds _
      show (descPad db sc ds).countP p = _
      rw [countP_descPad db v sc ds p hp]
      simp [hsc]
    rw [List.map_congr_left hterm, if_neg (by simp [hsc])]
    simp

/-- C6: `get_training_data` returns, for the unique scene with a given
scene id value, one row per pair of a "train" dataset assignment of that
scene and one of its descriptions (a scene with no description still
contributes one row per "train" assignment, carrying NULL in the
description field — the final projected column; a scene with k
descriptions contributes k rows per assignment, not deduplicated). -/
theorem c6_training_data_fanout (s : Store) (v : Value)
    (h1 : s.current.scenes.countP (fun r => decide (r.scene_id = v)) = 1) :
    (get_training_data s).countP
        (fun r => decide (rowSceneId r = Option.some v)) =
      (s.current.datasets.countP (fun ds => decide (ds.scene_id = v) &&
        (ds.dataset_type == Value.text "train"))) *
      max 1 (s.current.scene_descriptions.countP
        (fun d => decide (d.scene_id = v))) ∧
    (s.current.scene_descriptions.countP
        (fun d => decide (d.scene_id = v)) = 0 →
      ∀ r ∈ get_training_data s, rowSceneId r = Option.some v →
        rowLast r = Option.some Value.null) := by
  constructor
  · unfold get_training_data
    rw [List.countP_map, List.countP_filter]
    unfold trainingJoin
    rw [List.countP_flatMap]
    have hp : ∀ t : SceneRow × DatasetRow × Option SceneDescriptionRow,
        (((fun r => decide (rowSceneId r = Option.some v)) ∘
          (fun t => RRow.tuple (t.1.toRow ++ [descText t.2.2]))) t &&
          (t.2.1.dataset_type == Value.text "train")) =
        (decide (t.1.scene_id = v) &&
          (t.2.1.dataset_type == Value.text "train")) := by
      intro t
      simp [rowSceneId, SceneRow.toRow]
    have hterm : ∀ sc ∈ s.current.scenes,
        (List.countP (fun t =>
          ((fun r => decide (rowSceneId r = Option.some v)) ∘
            (fun t => RRow.tuple (t.1.toRow ++ [descText t.2.2]))) t &&
          (t.2.1.dataset_type == Value.text "train")) ∘
            sceneJoin s.current) sc =
        (fun sc => if decide (sc.scene_id = v)
          then (s.current.datasets.countP (fun ds =>
              decide (ds.scene_id = v) &&
                (ds.dataset_type == Value.text "train"))) *
            max 1 (s.current.scene_descriptions.countP
              (fun d => decide (d.scene_id = v)))
          else 0) sc := by
      intro sc _
      exact countP_sceneJoin s.current v sc _ hp
    rw [List.map_congr_left hterm, sum_map_ite, h1, one_mul]
  · intro h0 r hr hsid
    unfold get_training_data at hr
    obtain ⟨t, ht, rfl⟩ := List.mem_map.mp hr
    obtain ⟨htj, _⟩ := List.mem_filter.mp ht
    unfold trainingJoin at htj
    obtain ⟨sc, _, htj2⟩ := List.mem_flatMap.mp htj
    unfold sceneJoin at htj2
    obtain ⟨ds, _, htp⟩ := List.mem_flatMap.mp htj2
    obtain ⟨h1t, _, h3⟩ := descPad_mem htp
    rcases h3 with hnone | ⟨d, hdsome, hdm⟩
    · simp [rowLast, hnone, descText, List.getLast?_concat]
    · exfalso
      have hsv : t.1.scene_id = v := by
        simpa [rowSceneId, SceneRow.toRow] using hsid
      obtain ⟨hdmem, hdfil⟩ := List.mem_filter.mp hdm
      have hdv : d.scene_id = v := by
        have : d.scene_id = sc.scene_id := by simpa using hdfil
        rw [this, ← h1t, hsv]
      have := List.countP_eq_zero.mp h0 d hdmem
      simp [hdv] at this

/-- Witness for C6: on the sample store, scene 1 has one "train"
assignment and no description, so it appears exactly once, with a NULL
description field. -/
theorem c6_training_data_fanout_witness :
    (get_training_data sampleStore2).countP
        (fun r => decide (rowSceneId r = Option.some (Value.int 1))) =
      (sampleStore2.current.datasets.countP (fun ds =>
        decide (ds.scene_id = Value.int 1) &&
          (ds.dataset_type == Value.text "train"))) *
      max 1 (sampleStore2.current.scene_descriptions.countP
        (fun d => decide (d.scene_id = Value.int 1))) ∧
    (sampleStore2.current.scene_descriptions.countP
        (fun d => decide (d.scene_id = Value.int 1)) = 0 →
      ∀ r ∈ get_training_data sampleStore2,
        rowSceneId r = Option.some (Value.int 1) →
          rowLast r = Option.some Value.null) :=
  c6_training_data_fanout sampleStore2 (Value.int 1) rfl

end SceneDB
